import Mathlib

/-!
Verification of the authentication core of `src/examples/good/auth-example.py`:
credential verification, signed-token issuance/validation (`AuthService`), and
the sliding-window `RateLimiter`.

Modelling conventions:
* Time is `Int`, in seconds (Python `datetime` values; `timedelta(minutes=m)` is
  `m * 60` seconds, `timedelta(days=d)` is `d * 86400` seconds, and the rate
  limiter `window` is already in seconds in the source).
* A JWT string is modelled as a `Token`: the claim payload plus a signature
  string.  `jwt.encode`/`jwt.decode` are external library calls; they are
  modelled after §4.2 of the spec: `encode` signs the payload with the
  process-wide secret, `decode` checks signature integrity first, then expiry
  (`now > exp` gives `ExpiredSignatureError`), and on success returns the
  payload.  The signature function `mac` is an arbitrary concrete keyed
  function; no claim here depends on its cryptographic properties.
* `bcrypt.checkpw` is an external collaborator and is passed in as a function
  argument `checkpw`.
* `secrets.token_urlsafe(32)` (the refresh token id) and `datetime.utcnow()`
  are external effects; they are passed in as the arguments `jti` and `now`.
* Raised Python exceptions are modelled as result constructors
  (`AuthenticationError`, `AuthorizationError`, `HTTPException`, and the
  uncaught `KeyError` from `payload["sub"]`).
-/

namespace AuthCore

/-- The `User` model read from the external user store (`app.models.User`). -/
structure User where
  id : String
  email : String
  name : String
  password_hash : String
deriving DecidableEq

/-- The JWT claim set built by `_create_access_token` / `_create_refresh_token`:
`{sub, exp, iat, type}` plus `jti` for refresh tokens.  A claim that is absent
from the payload dict is `none`. -/
structure Payload where
  sub : Option String
  exp : Int
  iat : Int
  type : Option String
  jti : Option String
deriving DecidableEq

/-- A serialized signed token (the opaque string produced by `jwt.encode`):
its payload together with its signature. -/
structure Token where
  payload : Payload
  sig : String
deriving DecidableEq

/-- Rendering of a payload used by the modelled signing function. -/
def payloadRepr (p : Payload) : String :=
  toString p.sub ++ "|" ++ toString p.exp ++ "|" ++ toString p.iat ++ "|" ++
    toString p.type ++ "|" ++ toString p.jti

/-- Modelled keyed signature over the payload (stands for HS256 in
`jwt.encode`/`jwt.decode`; no claim depends on its cryptographic strength). -/
def mac (secret : String) (p : Payload) : String :=
  "hmac:" ++ secret ++ ":" ++ payloadRepr p

/-- Model of the library call `jwt.encode(payload, secret)`. -/
def jwtEncode (secret : String) (p : Payload) : Token :=
  { payload := p, sig := mac secret p }

/-- Outcomes of `jwt.decode`: the exceptions `jwt.ExpiredSignatureError` and
`jwt.JWTError` (any other decode/signature failure). -/
inductive JwtError where
  | expired
  | malformed
deriving DecidableEq

/-- Model of the library call `jwt.decode(token, secret, algorithms=...)`,
after §4.2 of the spec: signature integrity is checked first (failure raises
`jwt.JWTError`), then expiry (`now > exp` raises `jwt.ExpiredSignatureError`),
then the payload is returned. -/
def jwtDecode (secret : String) (now : Int) (tok : Token) : Except JwtError Payload :=
  if tok.sig ≠ mac secret tok.payload then .error .malformed
  else if tok.payload.exp < now then .error .expired
  else .ok tok.payload

/-- Configuration of `AuthService` as set in `AuthService.__init__`. -/
structure AuthService where
  jwt_secret : String
  jwt_algorithm : String
  access_token_expire_minutes : Int
  refresh_token_expire_days : Int
deriving DecidableEq

/-- `AuthService.__init__`: secret from settings, algorithm HS256,
access tokens live 60 minutes, refresh tokens live 7 days. -/
def AuthService.init (secret : String) : AuthService :=
  { jwt_secret := secret
    jwt_algorithm := "HS256"
    access_token_expire_minutes := 60
    refresh_token_expire_days := 7 }

/-- `AuthService._create_access_token`: payload
`{sub: user_id, exp: now + 60 min, iat: now, type: "access"}`, signed. -/
def AuthService.create_access_token (s : AuthService) (now : Int) (user_id : String) : Token :=
  jwtEncode s.jwt_secret
    { sub := some user_id
      exp := now + s.access_token_expire_minutes * 60
      iat := now
      type := some "access"
      jti := none }

/-- `AuthService._create_refresh_token`: payload
`{sub: user_id, exp: now + 7 days, iat: now, type: "refresh", jti: fresh id}`,
signed.  The fresh random id produced by `secrets.token_urlsafe(32)` is the
argument `jti`. -/
def AuthService.create_refresh_token (s : AuthService) (now : Int) (jti : String)
    (user_id : String) : Token :=
  jwtEncode s.jwt_secret
    { sub := some user_id
      exp := now + s.refresh_token_expire_days * 86400
      iat := now
      type := some "refresh"
      jti := some jti }

/-- Result of `AuthService.verify_token`: the returned user id, a raised
`AuthorizationError(message, error_code, trace_id)`, or an uncaught Python
`KeyError` (from `payload["sub"]` when the claim is absent). -/
inductive VerifyResult where
  | ok (user_id : String)
  | authorizationError (message : String) (error_code : String) (trace_id : String)
  | keyError (key : String)
deriving DecidableEq

/-- `AuthService.verify_token` (lines 180-214): decode the credential with the
service secret; on success reject a payload whose `type` claim is not
`"access"` with `AUTH_002`, then return `payload["sub"]` (an absent `sub`
claim raises `KeyError`); `jwt.ExpiredSignatureError` maps to `AUTH_003` and
`jwt.JWTError` to `AUTH_004`. -/
def AuthService.verify_token (s : AuthService) (now : Int) (trace_id : String)
    (tok : Token) : VerifyResult :=
  match jwtDecode s.jwt_secret now tok with
  | .ok payload =>
      if payload.type ≠ some "access" then
        .authorizationError "Invalid token type" "AUTH_002" trace_id
      else
        match payload.sub with
        | some user_id => .ok user_id
        | none => .keyError "sub"
  | .error .expired => .authorizationError "Token has expired" "AUTH_003" trace_id
  | .error .malformed => .authorizationError "Invalid token" "AUTH_004" trace_id

/-- Modelled from the spec: the general `TokenCodec.validate(tokenString,
expectedKind)` of §4.2 is not in `src/` — `verify_token` only implements its
`expectedKind = "access"` instance.  This definition generalizes the hardcoded
kind check of `verify_token` to a parameter, exactly as §4.2 describes
(signature, then expiry, then `kind == expectedKind`, then subject). -/
def validate (secret : String) (now : Int) (trace_id : String) (expectedKind : String)
    (tok : Token) : VerifyResult :=
  match jwtDecode secret now tok with
  | .ok payload =>
      if payload.type ≠ some expectedKind then
        .authorizationError "Invalid token type" "AUTH_002" trace_id
      else
        match payload.sub with
        | some user_id => .ok user_id
        | none => .keyError "sub"
  | .error .expired => .authorizationError "Token has expired" "AUTH_003" trace_id
  | .error .malformed => .authorizationError "Invalid token" "AUTH_004" trace_id

/-- A concrete expired refresh-typed credential, well signed with key `"k"`
(expired for any validation time after 100). -/
def expiredRefreshTok : Token :=
  jwtEncode "k" { sub := some "u", exp := 100, iat := 0, type := some "refresh", jti := none }

/-- A concrete well-signed, unexpired (before time 100) credential whose
`type` claim is `"access"` but whose payload lacks the `sub` claim.  No
`_create_*_token` output looks like this, but `verify_token` accepts any
decodable credential presented on the wire. -/
def subMissingTok : Token :=
  jwtEncode "k" { sub := none, exp := 100, iat := 0, type := some "access", jti := none }

/-- The `user` object of the success envelope (`{id, email, name}`). -/
structure UserSummary where
  id : String
  email : String
  name : String
deriving DecidableEq

/-- The `data` part of the success envelope returned by `authenticate_user`. -/
structure SuccessData where
  user : UserSummary
  access_token : Token
  refresh_token : Token
  token_type : String
deriving DecidableEq

/-- The `meta` part of the response envelope (`{trace_id, timestamp}`;
the timestamp is the ISO rendering of `now`). -/
structure ResponseMeta where
  trace_id : String
  timestamp : Int
deriving DecidableEq

/-- The uniform response envelope built on success: `data` populated,
`error: None`, plus `meta`.  `error` is kept as an `Option` to mirror the
literal dict shape (`"error": None`). -/
structure Envelope where
  data : SuccessData
  error : Option Unit
  meta : ResponseMeta
deriving DecidableEq

/-- Result of `AuthService.authenticate_user`: the returned envelope, or a
raised `AuthenticationError(message, error_code, trace_id)`. -/
inductive LoginResult where
  | ok (envelope : Envelope)
  | authenticationError (message : String) (error_code : String) (trace_id : String)
deriving DecidableEq

/-- `AuthService.authenticate_user` (lines 43-131).  The external user store
(`User.get_by_email`) is the argument `store`; `bcrypt.checkpw` is `checkpw`.
A missing user raises `UserNotFoundException`, which the handler at line 115
converts to `AuthenticationError("IDまたはパスワードが正しくありません",
"AUTH_001")`; a failed password check raises the identical error at line 78
(the catch-all at line 122 logs and re-raises unchanged).  On success both
tokens are minted and the uniform envelope is returned. -/
def AuthService.authenticate_user (s : AuthService) (store : String → Option User)
    (checkpw : String → String → Bool) (now : Int) (jti : String)
    (email password trace_id : String) : LoginResult :=
  match store email with
  | none => .authenticationError "IDまたはパスワードが正しくありません" "AUTH_001" trace_id
  | some user =>
      if ¬ checkpw password user.password_hash then
        .authenticationError "IDまたはパスワードが正しくありません" "AUTH_001" trace_id
      else
        .ok
          { data :=
              { user := { id := user.id, email := user.email, name := user.name }
                access_token := s.create_access_token now user.id
                refresh_token := s.create_refresh_token now jti user.id
                token_type := "bearer" }
            error := none
            meta := { trace_id := trace_id, timestamp := now } }

/-- The `RateLimiter` class state: configuration plus the
`defaultdict(list)` of per-key attempt timestamps (a missing key is `[]`). -/
structure RateLimiter where
  maxAttempts : Nat
  window : Int
  attempts : String → List Int

/-- `RateLimiter.__init__(max_attempts=5, window=300)`. -/
def RateLimiter.init (max_attempts : Nat) (window : Int) : RateLimiter :=
  { maxAttempts := max_attempts, window := window, attempts := fun _ => [] }

/-- `RateLimiter.check_rate_limit` (lines 232-249): prune the key's timestamps
to those strictly newer than `now - window` (writing the pruned list back),
deny if the pruned count has reached `max_attempts`, otherwise record `now`
and admit. -/
def RateLimiter.check_rate_limit (rl : RateLimiter) (key : String) (now : Int) :
    Bool × RateLimiter :=
  let cutoff := now - rl.window
  let pruned := (rl.attempts key).filter (fun attempt => decide (cutoff < attempt))
  if rl.maxAttempts ≤ pruned.length then
    (false, { rl with attempts := fun k => if k = key then pruned else rl.attempts k })
  else
    (true,
      { rl with attempts := fun k => if k = key then pruned ++ [now] else rl.attempts k })

/-- Iterate `check_rate_limit` for one key over a list of call timestamps,
collecting the list of verdicts. -/
def RateLimiter.run : RateLimiter → String → List Int → List Bool × RateLimiter
  | rl, _, [] => ([], rl)
  | rl, key, t :: ts =>
      let step := rl.check_rate_limit key t
      let rest := step.2.run key ts
      (step.1 :: rest.1, rest.2)

/-- Boundary operations a request may perform, used to record which
collaborators a handler actually invokes (instrumented semantics). -/
inductive BoundaryCall where
  | rateCheck (key : String)
  | fetchUser (email : String)
  | verifyPassword
  | mintAccess
  | mintRefresh
  | decodeToken
deriving DecidableEq

/-- The boundary calls performed by `authenticate_user`, in source order: the
user-store fetch, then (if found) the bcrypt check, then (if it passes) the
two token mints. -/
def AuthService.authenticate_user_calls (store : String → Option User)
    (checkpw : String → String → Bool) (email password : String) : List BoundaryCall :=
  .fetchUser email ::
    match store email with
    | none => []
    | some user =>
        .verifyPassword ::
          if checkpw password user.password_hash then [.mintAccess, .mintRefresh] else []

/-- The boundary calls performed by `verify_token`: only the `jwt.decode` of
the presented credential — in particular no rate-limiter check. -/
def verify_token_calls : List BoundaryCall := [.decodeToken]

/-- Result of the wrapped `login_endpoint`: the envelope, a propagated
`AuthenticationError`, or the `HTTPException(429)` raised by the rate-limiting
decorator. -/
inductive LoginResponse where
  | ok (envelope : Envelope)
  | authenticationError (message : String) (error_code : String) (trace_id : String)
  | httpException (status_code : Nat) (detail : String)
deriving DecidableEq

/-- `login_endpoint` wrapped by the `RateLimiter.__call__` decorator
(lines 251-283): first `check_rate_limit(client_ip)`; if denied, raise
`HTTPException(429, "Rate limit exceeded")` without touching any other
collaborator; otherwise run `authenticate_user`.  The third component records
the boundary calls performed, in order. -/
def login_endpoint (s : AuthService) (rl : RateLimiter) (store : String → Option User)
    (checkpw : String → String → Bool) (now : Int) (jti : String)
    (email password trace_id client_ip : String) :
    LoginResponse × RateLimiter × List BoundaryCall :=
  let step := rl.check_rate_limit client_ip now
  if step.1 = false then
    (.httpException 429 "Rate limit exceeded", step.2, [.rateCheck client_ip])
  else
    (match s.authenticate_user store checkpw now jti email password trace_id with
      | .ok env => .ok env
      | .authenticationError m c t => .authenticationError m c t,
     step.2,
     .rateCheck client_ip :: AuthService.authenticate_user_calls store checkpw email password)

/-! Helper lemmas (shared; not claim theorems). -/

/-- `verify_token` is exactly the spec's `validate` at `expectedKind = "access"`
with the service's own secret. -/
theorem verify_token_eq_validate (s : AuthService) (now : Int) (trace_id : String)
    (tok : Token) :
    s.verify_token now trace_id tok = validate s.jwt_secret now trace_id "access" tok := rfl

/-- Pruning removes nothing when every recorded timestamp is within `window`
of `now`. -/
theorem prune_keeps_all {window now : Int} {l : List Int}
    (h : ∀ a ∈ l, now - a < window) :
    l.filter (fun attempt => decide (now - window < attempt)) = l := by
  refine List.filter_eq_self.mpr ?_
  intro a ha
  have := h a ha
  simpa using by omega

/-- Filtering out a present element strictly shrinks a list. -/
theorem length_filter_lt_of_mem {p : Int → Bool} {a : Int} :
    ∀ {l : List Int}, a ∈ l → p a = false → (l.filter p).length < l.length := by
  intro l
  induction l with
  | nil => intro h; cases h
  | cons x xs ih =>
      intro hmem hpa
      rcases List.mem_cons.mp hmem with h | h
      · subst h
        have := List.length_filter_le p xs
        simp [List.filter_cons, hpa]
        omega
      · by_cases hx : p x = true
        · have := ih h hpa
          simp [List.filter_cons, hx]
          omega

        · have := ih h hpa
          simp only [Bool.not_eq_true] at hx
          simp [List.filter_cons, hx]
          omega

/-- Verdicts of a run of `check_rate_limit` calls for one key, all within a
single window of each other and of everything already recorded for the key:
call `i` (0-based) is admitted exactly when `i` keeps the count below
`maxAttempts`. -/
theorem run_verdicts (key : String) :
    ∀ (ts : List Int) (rl : RateLimiter),
      ts.Pairwise (fun a b => b - a < rl.window) →
      (∀ a ∈ rl.attempts key, ∀ t ∈ ts, t - a < rl.window) →
      (rl.run key ts).1 =
        (List.range ts.length).map
          (fun i => decide ((rl.attempts key).length + i < rl.maxAttempts)) := by
  intro ts
  induction ts with
  | nil => intro rl _ _; rfl
  | cons t ts ih =>
      intro rl hP hacc
      have hfresh : ∀ a ∈ rl.attempts key, t - a < rl.window := by
        intro a ha
        exact hacc a ha t (List.mem_cons_self t ts)
      have hprune :
          (rl.attempts key).filter (fun attempt => decide (t - rl.window < attempt)) =
            rl.attempts key := prune_keeps_all hfresh
      rcases List.pairwise_cons.mp hP with ⟨hhead, htail⟩
      by_cases hfull : rl.maxAttempts ≤ (rl.attempts key).length
      · have hstep :
            rl.check_rate_limit key t =
              (false,
                { rl with attempts := fun k => if k = key then rl.attempts key else rl.attempts k }) := by
          simp [RateLimiter.check_rate_limit, hprune, hfull]
        have hih :=
          ih { rl with attempts := fun k => if k = key then rl.attempts key else rl.attempts k }
            htail
            (by
              intro a ha u hu
              simp only [if_pos rfl] at ha
              exact hacc a ha u (List.mem_cons_of_mem t hu))
        simp only [RateLimiter.run, hstep, hih, if_pos rfl, if_true, List.length_cons]
        rw [List.range_succ_eq_map, List.map_cons, List.map_map]
        refine congrArg₂ _ ?_ (List.map_congr_left ?_)
        · simp
          omega
        · intro i _
          simp only [Function.comp]
          refine decide_eq_decide.mpr ?_
          omega
      · have hstep :
            rl.check_rate_limit key t =
              (true,
                { rl with attempts := fun k => if k = key then rl.attempts key ++ [t] else rl.attempts k }) := by
          simp [RateLimiter.check_rate_limit, hprune, hfull]
        have hih :=
          ih { rl with attempts := fun k => if k = key then rl.attempts key ++ [t] else rl.attempts k }
            htail
            (by
              intro a ha u hu
              simp only [if_pos rfl] at ha
              rcases List.mem_append.mp ha with h | h
              · exact hacc a h u (List.mem_cons_of_mem t hu)
              · rcases List.mem_singleton.mp h with rfl
                exact hhead u hu)
        simp only [RateLimiter.run, hstep, hih, if_pos rfl, if_true, List.length_cons]
        rw [List.range_succ_eq_map, List.map_cons, List.map_map]
        refine congrArg₂ _ ?_ (List.map_congr_left ?_)
        · simp
          omega
        · intro i _
          simp only [Function.comp, List.length_append]
          refine decide_eq_decide.mpr ?_
          simp
          omega

/-- Verdicts over `range n` are all-true while `n` stays within the bound. -/
theorem map_range_decide_lt_of_le {max n : Nat} (h : n ≤ max) :
    (List.range n).map (fun i => decide (i < max)) = List.replicate n true := by
  refine List.eq_replicate_iff.mpr ⟨by simp, ?_⟩
  intro b hb
  rcases List.mem_map.mp hb with ⟨i, hi, rfl⟩
  have := List.mem_range.mp hi
  simp
  omega

/-- Verdicts over `range (max + 1)`: `max` admissions then one denial. -/
theorem map_range_decide_lt_succ (max : Nat) :
    (List.range (max + 1)).map (fun i => decide (i < max)) =
      List.replicate max true ++ [false] := by
  rw [List.range_succ max, List.map_append, map_range_decide_lt_of_le (Nat.le_refl max)]
  simp

/-- `run_verdicts` specialized to the freshly initialized limiter. -/
theorem run_verdicts_init (max_attempts : Nat) (window : Int) (key : String)
    (ts : List Int) (hP : ts.Pairwise (fun a b => b - a < window)) :
    ((RateLimiter.init max_attempts window).run key ts).1 =
      (List.range ts.length).map (fun i => decide (i < max_attempts)) := by
  have hv :=
    run_verdicts key ts (RateLimiter.init max_attempts window) hP
      (by intro a ha; simp [RateLimiter.init] at ha)
  rw [hv]
  refine List.map_congr_left ?_
  intro i _
  simp [RateLimiter.init]

/-! Claim theorems. -/

/-- C1: whether the email matches no identity or the identity exists but the
password fails verification, `authenticate_user` raises the same
`AuthenticationError`: identical message `IDまたはパスワードが正しくありません`
and identical code `AUTH_001`; no output distinguishes the two cases (the
result does not even depend on the clock or the refresh-token id). -/
theorem uniform_invalid_credentials_error (s : AuthService)
    (store : String → Option User) (checkpw : String → String → Bool)
    (now now' : Int) (jti jti' : String)
    (email₁ password₁ email₂ password₂ trace_id : String) (user : User)
    (h1 : store email₁ = none) (h2 : store email₂ = some user)
    (h3 : checkpw password₂ user.password_hash = false) :
    s.authenticate_user store checkpw now jti email₁ password₁ trace_id =
      .authenticationError "IDまたはパスワードが正しくありません" "AUTH_001" trace_id ∧
    s.authenticate_user store checkpw now' jti' email₂ password₂ trace_id =
      .authenticationError "IDまたはパスワードが正しくありません" "AUTH_001" trace_id ∧
    s.authenticate_user store checkpw now jti email₁ password₁ trace_id =
      s.authenticate_user store checkpw now' jti' email₂ password₂ trace_id := by
  refine ⟨?_, ?_, ?_⟩ <;>
    simp [AuthService.authenticate_user, h1, h2, h3]

/-- C1 witness: a store holding only `a@x.com`; the unknown-email login and the
wrong-password login return the identical `AUTH_001` error. -/
theorem uniform_invalid_credentials_error_witness :
    ((fun e => if e = "a@x.com" then some (⟨"1", "a@x.com", "Alice", "h"⟩ : User) else none)
        "missing@x.com" = (none : Option User)) ∧
    (AuthService.init "k").authenticate_user
        (fun e => if e = "a@x.com" then some ⟨"1", "a@x.com", "Alice", "h"⟩ else none)
        (fun _ _ => false) 0 "j" "missing@x.com" "pw1" "t" =
      .authenticationError "IDまたはパスワードが正しくありません" "AUTH_001" "t" ∧
    (AuthService.init "k").authenticate_user
        (fun e => if e = "a@x.com" then some ⟨"1", "a@x.com", "Alice", "h"⟩ else none)
        (fun _ _ => false) 5 "j2" "a@x.com" "wrong" "t" =
      .authenticationError "IDまたはパスワードが正しくありません" "AUTH_001" "t" := by
  refine ⟨by decide, ?_, ?_⟩
  · exact (uniform_invalid_credentials_error (AuthService.init "k") _ _ 0 5 "j" "j2"
      "missing@x.com" "pw1" "a@x.com" "wrong" "t" ⟨"1", "a@x.com", "Alice", "h"⟩
      (by decide) (by decide) (by decide)).1
  · exact (uniform_invalid_credentials_error (AuthService.init "k") _ _ 0 5 "j" "j2"
      "missing@x.com" "pw1" "a@x.com" "wrong" "t" ⟨"1", "a@x.com", "Alice", "h"⟩
      (by decide) (by decide) (by decide)).2.1

/-- C4: a token whose signature verifies and whose expiry has passed yields the
`AUTH_003` `Token has expired` error — never the `AUTH_004` malformed error —
whatever its `type` claim says (signature is checked before expiry, and expiry
before the kind check). -/
theorem expired_token_yields_expired_error (s : AuthService) (now : Int)
    (trace_id : String) (tok : Token)
    (hsig : tok.sig = mac s.jwt_secret tok.payload)
    (hexp : tok.payload.exp < now) :
    s.verify_token now trace_id tok =
      .authorizationError "Token has expired" "AUTH_003" trace_id := by
  simp [AuthService.verify_token, jwtDecode, hsig, hexp]

/-- C4 witness: a well-signed refresh-typed token that expired at time 100,
verified at time 101. -/
theorem expired_token_yields_expired_error_witness :
    (expiredRefreshTok.sig = mac (AuthService.init "k").jwt_secret expiredRefreshTok.payload) ∧
    (AuthService.init "k").verify_token 101 "t" expiredRefreshTok =
      .authorizationError "Token has expired" "AUTH_003" "t" :=
  ⟨rfl,
    expired_token_yields_expired_error (AuthService.init "k") 101 "t" expiredRefreshTok
      rfl (by decide)⟩

/-- C6: `check_rate_limit` prunes the key's sequence of every entry that is at
least `window` old before reading the count — the list the count is read from
holds only timestamps younger than `window` — and when the pruned count has
reached `maxAttempts` it returns `false` and stores exactly the pruned list
(the attempt is not appended). -/
theorem prune_before_read_and_denial_keeps_state (rl : RateLimiter) (key : String)
    (now : Int) :
    (∀ a ∈ (rl.attempts key).filter (fun attempt => decide (now - rl.window < attempt)),
        now - a < rl.window) ∧
    (rl.maxAttempts ≤
        ((rl.attempts key).filter (fun attempt => decide (now - rl.window < attempt))).length →
      (rl.check_rate_limit key now).1 = false ∧
      (rl.check_rate_limit key now).2.attempts key =
        (rl.attempts key).filter (fun attempt => decide (now - rl.window < attempt))) := by
  constructor
  · intro a ha
    have h := (List.mem_filter.mp ha).2
    simp at h
    omega
  · intro hfull
    constructor <;> simp [RateLimiter.check_rate_limit, hfull]

/-- C6 witness: one recorded attempt at time 5, window 10, limit 1, call at
time 6: nothing is pruned, the call is denied, and the stored list stays
`[5]`. -/
theorem prune_before_read_and_denial_keeps_state_witness :
    ((⟨1, 10, fun _ => [5]⟩ : RateLimiter).maxAttempts ≤
        (((⟨1, 10, fun _ => [5]⟩ : RateLimiter).attempts "k").filter
          (fun attempt => decide ((6 : Int) - (⟨1, 10, fun _ => [5]⟩ : RateLimiter).window <
            attempt))).length) ∧
    ((⟨1, 10, fun _ => [5]⟩ : RateLimiter).check_rate_limit "k" 6).1 = false ∧
    ((⟨1, 10, fun _ => [5]⟩ : RateLimiter).check_rate_limit "k" 6).2.attempts "k" = [5] :=
  ⟨by decide,
    ((prune_before_read_and_denial_keeps_state ⟨1, 10, fun _ => [5]⟩ "k" 6).2
      (by decide)).1,
    ((prune_before_read_and_denial_keeps_state ⟨1, 10, fun _ => [5]⟩ "k" 6).2
      (by decide)).2⟩

/-- C7: the window slides — if the key's recorded sequence is within the bound
and some recorded attempt (in particular the first one) is at least `window`
old, the next call is admitted again, because pruning strictly shrinks the
sequence below `maxAttempts`. -/
theorem window_recovery_after_wait (rl : RateLimiter) (key : String) (now : Int)
    (hbound : (rl.attempts key).length ≤ rl.maxAttempts)
    (hold : ∃ a ∈ rl.attempts key, a + rl.window ≤ now) :
    (rl.check_rate_limit key now).1 = true := by
  rcases hold with ⟨a, ha, hle⟩
  have hlt :=
    length_filter_lt_of_mem (p := fun attempt => decide (now - rl.window < attempt)) ha
      (by simp; omega)
  have hcond : ¬ rl.maxAttempts ≤
      ((rl.attempts key).filter (fun attempt => decide (now - rl.window < attempt))).length := by
    omega
  simp [RateLimiter.check_rate_limit, hcond]

/-- C7 witness: window 10, limit 1, a single attempt recorded at time 0 (a
denial would have followed at any time before 10); the call at time 10 is
admitted again. -/
theorem window_recovery_after_wait_witness :
    (((⟨1, 10, fun _ => [0]⟩ : RateLimiter).attempts "k").length ≤
        (⟨1, 10, fun _ => [0]⟩ : RateLimiter).maxAttempts) ∧
    ((⟨1, 10, fun _ => [0]⟩ : RateLimiter).check_rate_limit "k" 10).1 = true :=
  ⟨by decide,
    window_recovery_after_wait ⟨1, 10, fun _ => [0]⟩ "k" 10 (by decide)
      ⟨0, by decide, by decide⟩⟩

/-- C2: starting from a fresh limiter, for a run of calls for one key whose
timestamps all fall within one window, every call of a run of length
`n ≤ maxAttempts` is admitted, and in a run of length `maxAttempts + 1` the
first `maxAttempts` calls are admitted and the last one is denied. -/
theorem sliding_window_admits_then_denies (max_attempts : Nat) (window : Int)
    (key : String) (ts : List Int)
    (hw : ts.Pairwise (fun a b => b - a < window)) :
    (ts.length ≤ max_attempts →
      ((RateLimiter.init max_attempts window).run key ts).1 =
        List.replicate ts.length true) ∧
    (ts.length = max_attempts + 1 →
      ((RateLimiter.init max_attempts window).run key ts).1 =
        List.replicate max_attempts true ++ [false]) := by
  have hv := run_verdicts_init max_attempts window key ts hw
  constructor
  · intro hn
    rw [hv, map_range_decide_lt_of_le hn]
  · intro hn
    rw [hv, hn, map_range_decide_lt_succ]

/-- C2 witness: limit 2, window 300, three calls at times 0, 1, 2: the first
two are admitted, the third is denied. -/
theorem sliding_window_admits_then_denies_witness :
    List.Pairwise (fun a b => b - a < (300 : Int)) [0, 1, 2] ∧
    (([0, 1, 2] : List Int).length = 2 + 1) ∧
    ((RateLimiter.init 2 300).run "k" [0, 1, 2]).1 =
      List.replicate 2 true ++ [false] :=
  ⟨by decide, by decide,
    (sliding_window_admits_then_denies 2 300 "k" [0, 1, 2] (by decide)).2 (by decide)⟩

/-- C5: a freshly issued access token round-trips — validated with
`expectedKind = "access"` (and the issuing secret) it returns the issuing
subject, and validated with `expectedKind = "refresh"` it fails with the
wrong-type error `AUTH_002`. -/
theorem access_token_round_trip (s : AuthService) (uid trace_id : String)
    (now now' : Int)
    (hfresh : now' ≤ now + s.access_token_expire_minutes * 60) :
    validate s.jwt_secret now' trace_id "access" (s.create_access_token now uid) =
      .ok uid ∧
    validate s.jwt_secret now' trace_id "refresh" (s.create_access_token now uid) =
      .authorizationError "Invalid token type" "AUTH_002" trace_id := by
  have hne : ¬ (now + s.access_token_expire_minutes * 60 < now') := by omega
  constructor <;>
    simp [validate, jwtDecode, AuthService.create_access_token, jwtEncode, hne]

/-- C5 witness: the token issued at time 0 for subject `"u"` with secret `"k"`,
validated at time 0 under both expected kinds. -/
theorem access_token_round_trip_witness :
    ((0 : Int) ≤ 0 + (AuthService.init "k").access_token_expire_minutes * 60) ∧
    validate (AuthService.init "k").jwt_secret 0 "t" "access"
        ((AuthService.init "k").create_access_token 0 "u") = .ok "u" ∧
    validate (AuthService.init "k").jwt_secret 0 "t" "refresh"
        ((AuthService.init "k").create_access_token 0 "u") =
      .authorizationError "Invalid token type" "AUTH_002" "t" :=
  ⟨by decide,
    (access_token_round_trip (AuthService.init "k") "u" "t" 0 0 (by decide)).1,
    (access_token_round_trip (AuthService.init "k") "u" "t" 0 0 (by decide)).2⟩

/-- C8: the rate limiter runs before everything else in a login request — the
first boundary call is always the rate check; when it denies, the request ends
in `HTTPException(429)` having performed no user-store fetch, no password
check and no token mint; and `verify_token` performs no rate-limiter call at
all. -/
theorem rate_limiter_first_and_verify_unlimited (s : AuthService) (rl : RateLimiter)
    (store : String → Option User) (checkpw : String → String → Bool) (now : Int)
    (jti email password trace_id client_ip : String) :
    ((login_endpoint s rl store checkpw now jti email password trace_id client_ip).2.2.head? =
      some (.rateCheck client_ip)) ∧
    ((rl.check_rate_limit client_ip now).1 = false →
      login_endpoint s rl store checkpw now jti email password trace_id client_ip =
        (.httpException 429 "Rate limit exceeded", (rl.check_rate_limit client_ip now).2,
          [.rateCheck client_ip])) ∧
    (∀ k, BoundaryCall.rateCheck k ∉ verify_token_calls) := by
  refine ⟨?_, ?_, ?_⟩
  · by_cases h : (rl.check_rate_limit client_ip now).1 = false <;>
      simp [login_endpoint, h]
  · intro h
    simp [login_endpoint, h]
  · intro k
    simp [verify_token_calls]

/-- C8 witness: a limiter with `max_attempts = 0` denies immediately and the
login terminates at 429 with the rate check as its only boundary call. -/
theorem rate_limiter_first_and_verify_unlimited_witness :
    ((⟨0, 10, fun _ => []⟩ : RateLimiter).check_rate_limit "ip" 0).1 = false ∧
    login_endpoint (AuthService.init "k") ⟨0, 10, fun _ => []⟩ (fun _ => none)
        (fun _ _ => true) 0 "j" "e" "p" "t" "ip" =
      (.httpException 429 "Rate limit exceeded",
        ((⟨0, 10, fun _ => []⟩ : RateLimiter).check_rate_limit "ip" 0).2,
        [.rateCheck "ip"]) :=
  ⟨by decide,
    (rate_limiter_first_and_verify_unlimited (AuthService.init "k") ⟨0, 10, fun _ => []⟩
      (fun _ => none) (fun _ _ => true) 0 "j" "e" "p" "t" "ip").2.1 (by decide)⟩

/-- C9: the access token issued for a subject carries exactly
`{sub, iat, exp, type}` with `iat = now` and `exp = now + 3600` (the 60-minute
access TTL) and no `jti`; the refresh token additionally carries the supplied
fresh `jti` with `exp = now + 604800` (the 7-day refresh TTL); and the
configured access TTL is strictly below the refresh TTL. -/
theorem issued_token_claim_shape (secret uid jti : String) (now : Int) :
    ((AuthService.init secret).create_access_token now uid).payload =
      { sub := some uid, exp := now + 3600, iat := now, type := some "access",
        jti := none } ∧
    ((AuthService.init secret).create_refresh_token now jti uid).payload =
      { sub := some uid, exp := now + 604800, iat := now, type := some "refresh",
        jti := some jti } ∧
    (AuthService.init secret).access_token_expire_minutes * 60 <
      (AuthService.init secret).refresh_token_expire_days * 86400 := by
  refine ⟨?_, ?_, by norm_num [AuthService.init]⟩ <;>
    simp [AuthService.create_access_token, AuthService.create_refresh_token,
      jwtEncode, AuthService.init]

/-- C10: a well-signed, unexpired credential whose `type` claim is `"access"`
but whose payload lacks `sub` drives `verify_token` into the uncaught Python
`KeyError` at `payload["sub"]` — none of the `AUTH_002`/`AUTH_003`/`AUTH_004`
authorization errors is returned. -/
theorem missing_sub_claim_escapes_as_key_error :
    jwtDecode "k" 50 subMissingTok = .ok subMissingTok.payload ∧
    subMissingTok.payload.type = some "access" ∧
    subMissingTok.payload.sub = none ∧
    (AuthService.init "k").verify_token 50 "t" subMissingTok = .keyError "sub" := by
  refine ⟨?_, rfl, rfl, ?_⟩
  · simp [jwtDecode, subMissingTok, jwtEncode]
  · simp [AuthService.verify_token, jwtDecode, subMissingTok, jwtEncode, AuthService.init]

end AuthCore
